import Mathlib

/-!
Verification of the margin-calculation engine of the Arari-PRO payroll
dashboard.  The TypeScript source is shallowly embedded over `ℚ`: JS
`number` fields that the source reads bare become `ℚ`, fields the source
guards with truthiness tests (`x || 0`, `x && ...`) become `Option ℚ`
(where `none` models JS `undefined`; for every truthiness test in this
source, `some 0` and `none` behave identically).  `Math.round` is embedded
exactly (round half toward `+∞`).  Aggregate fields that JS can silently
turn into `NaN` (a bare sum over a possibly-`undefined` field) are modelled
as `Option ℚ` with an absorbing `none`.
-/

namespace Arari

/-- JS `Math.round`: rounds half toward positive infinity,
`Math.round x = ⌊x + 1/2⌋` for every finite `x`. -/
def jsRound (q : ℚ) : ℤ := ⌊q + 1/2⌋

/-- JS `a || b` for a possibly-`undefined` number `a`: the fallback `b` is
used when `a` is `undefined` or `0` (the falsy numbers). -/
def jsOr (a : Option ℚ) (b : ℚ) : ℚ :=
  match a with
  | none => b
  | some v => if v = 0 then b else v

/-- JS truthiness of a possibly-`undefined` number. -/
def truthy (a : Option ℚ) : Prop :=
  match a with
  | none => False
  | some v => v ≠ 0

instance : DecidablePred truthy := by
  intro a; unfold truthy; cases a <;> infer_instance

/-- Source `Employee` (src/types): the rate-card fields used by the calculators. -/
structure Employee where
  employeeId : String
  name : String
  hourlyRate : ℚ
  billingRate : ℚ
deriving Repr, DecidableEq

/-- Source `PayrollRecord` (src/types): the numeric fields the margin engine reads.
Fields the source accesses bare are `ℚ`; fields it guards against
`undefined` are `Option ℚ`. -/
structure PayrollRecord where
  period : String
  employeeId : String
  workDays : Option ℚ := none
  workHours : Option ℚ := none
  overtimeHours : Option ℚ := none
  overtimeOver60h : Option ℚ := none
  nightHours : Option ℚ := none
  holidayHours : Option ℚ := none
  paidLeaveDays : Option ℚ := none
  paidLeaveHours : Option ℚ := none
  paidLeaveAmount : Option ℚ := none
  baseSalary : ℚ := 0
  overtimePay : Option ℚ := none
  overtimeOver60hPay : Option ℚ := none
  nightPay : Option ℚ := none
  holidayPay : Option ℚ := none
  transportAllowance : Option ℚ := none
  nonBillableAllowances : Option ℚ := none
  otherAllowances : Option ℚ := none
  socialInsurance : Option ℚ := none
  welfarePension : Option ℚ := none
  employmentInsurance : Option ℚ := none
  incomeTax : Option ℚ := none
  residentTax : Option ℚ := none
  rentDeduction : Option ℚ := none
  utilitiesDeduction : Option ℚ := none
  mealDeduction : Option ℚ := none
  advancePayment : Option ℚ := none
  yearEndAdjustment : Option ℚ := none
  otherDeductions : Option ℚ := none
  grossSalary : ℚ := 0
  netSalary : ℚ := 0
  billingAmount : ℚ := 0
  grossProfit : ℚ := 0
  profitMargin : ℚ := 0
  totalCompanyCost : Option ℚ := none
  companySocialInsurance : Option ℚ := none
  companyEmploymentInsurance : Option ℚ := none
  companyWorkersComp : Option ℚ := none
deriving Repr, DecidableEq

/-- Source `Settings` (store): the three configurable rates; `none` = unset. -/
structure Settings where
  target_margin : Option ℚ := none
  employment_insurance_rate : Option ℚ := none
  workers_comp_rate : Option ℚ := none
deriving Repr, DecidableEq

/-! ## PayrollSlipModal (Header.tsx) -/

/-- Source `marginRate` (Header.tsx:177-179):
`record.billingAmount > 0 ? (record.grossProfit / record.billingAmount) * 100 : 0`. -/
def marginRate (r : PayrollRecord) : ℚ :=
  if 0 < r.billingAmount then r.grossProfit / r.billingAmount * 100 else 0

/-- Source `recordMargin` (EmployeeDetailModal, src/unnamed/part_001:165-167): the
same guarded formula as `marginRate`. -/
def recordMargin (r : PayrollRecord) : ℚ :=
  if 0 < r.billingAmount then r.grossProfit / r.billingAmount * 100 else 0

/-- Resolved margin target (Header.tsx:183): `settings.target_margin || 15`. -/
def targetMargin (s : Settings) : ℚ := jsOr s.target_margin 15

/-- The four color bands `getMarginColor` (Header.tsx:182-189) can return. -/
inductive MarginBand where
  | excellent
  | nearTarget
  | warning
  | critical
deriving Repr, DecidableEq

/-- Source `getMarginColor` (Header.tsx:182-189), abstracted to the band it picks:
emerald if `margin >= target`, green if `margin >= target - 3`, amber if
`margin >= target - 7`, red otherwise. -/
def getMarginColor (s : Settings) (margin : ℚ) : MarginBand :=
  let target := targetMargin s
  if target ≤ margin then .excellent
  else if target - 3 ≤ margin then .nearTarget
  else if target - 7 ≤ margin then .warning
  else .critical

/-- Source `baseBilling` (Header.tsx:194): `(record.workHours || 0) * employee.billingRate`. -/
def baseBilling (r : PayrollRecord) (e : Employee) : ℚ :=
  (r.workHours.getD 0) * e.billingRate

/-- Source `overtimeBilling` (Header.tsx:195): overtime hours at billing rate × 1.25. -/
def overtimeBilling (r : PayrollRecord) (e : Employee) : ℚ :=
  (r.overtimeHours.getD 0) * e.billingRate * (5/4)

/-- Source `overtime60hBilling` (Header.tsx:196): over-60h hours at billing rate × 1.5. -/
def overtime60hBilling (r : PayrollRecord) (e : Employee) : ℚ :=
  (r.overtimeOver60h.getD 0) * e.billingRate * (3/2)

/-- Source `nightBilling` (Header.tsx:197): night hours at billing rate × 0.25
(additive premium). -/
def nightBilling (r : PayrollRecord) (e : Employee) : ℚ :=
  (r.nightHours.getD 0) * e.billingRate * (1/4)

/-- Source `holidayBilling` (Header.tsx:198): holiday hours at billing rate × 1.35. -/
def holidayBilling (r : PayrollRecord) (e : Employee) : ℚ :=
  (r.holidayHours.getD 0) * e.billingRate * (27/20)

/-- Source `totalDeductions` (Header.tsx:204-209): the slip's displayed 控除合計 —
only the six listed fields, each `|| 0`. -/
def totalDeductions (r : PayrollRecord) : ℚ :=
  (r.socialInsurance.getD 0) + (r.welfarePension.getD 0) +
    (r.employmentInsurance.getD 0) + (r.incomeTax.getD 0) +
    (r.residentTax.getD 0) + (r.otherDeductions.getD 0)

/-- The deduction rows the slip renders (Header.tsx:546-559), as
label/displayed-value pairs; `DeductionRow` displays `value || 0`, and the
年末調整 row is rendered only when `(record.yearEndAdjustment || 0) !== 0`. -/
def slipDeductionRows (r : PayrollRecord) : List (String × ℚ) :=
  [("健康保険", r.socialInsurance.getD 0),
   ("厚生年金", r.welfarePension.getD 0),
   ("雇用保険", r.employmentInsurance.getD 0),
   ("所得税", r.incomeTax.getD 0),
   ("住民税", r.residentTax.getD 0),
   ("寮費・家賃", r.rentDeduction.getD 0),
   ("光熱費", r.utilitiesDeduction.getD 0),
   ("食事代・弁当", r.mealDeduction.getD 0),
   ("前借金返済", r.advancePayment.getD 0)] ++
  (if r.yearEndAdjustment.getD 0 ≠ 0 then [("年末調整", r.yearEndAdjustment.getD 0)] else []) ++
  [("その他控除", r.otherDeductions.getD 0)]

/-- Source `companyHealthIns` (Header.tsx:213): `record.socialInsurance || 0`. -/
def companyHealthIns (r : PayrollRecord) : ℚ := r.socialInsurance.getD 0

/-- Source `companyWelfarePension` (Header.tsx:214): `record.welfarePension || 0`. -/
def companyWelfarePension (r : PayrollRecord) : ℚ := r.welfarePension.getD 0

/-- Source `companySocialIns` (Header.tsx:215):
`record.companySocialInsurance || (companyHealthIns + companyWelfarePension)`. -/
def companySocialIns (r : PayrollRecord) : ℚ :=
  jsOr r.companySocialInsurance (companyHealthIns r + companyWelfarePension r)

/-- Source `empInsRate` (Header.tsx:218): `settings.employment_insurance_rate || 0.009`. -/
def empInsRate (s : Settings) : ℚ := jsOr s.employment_insurance_rate (9/1000)

/-- Source `companyEmploymentIns` (Header.tsx:219):
`record.companyEmploymentInsurance || Math.round((record.grossSalary || 0) * empInsRate)`;
`grossSalary` is a bare number, so `grossSalary || 0` is the identity. -/
def companyEmploymentIns (r : PayrollRecord) (s : Settings) : ℚ :=
  jsOr r.companyEmploymentInsurance ((jsRound (r.grossSalary * empInsRate s) : ℚ))

/-- Source `workersCompRate` (Header.tsx:222): `settings.workers_comp_rate || 0.003`. -/
def workersCompRate (s : Settings) : ℚ := jsOr s.workers_comp_rate (3/1000)

/-- Source `companyWorkersComp` (Header.tsx:223):
`record.companyWorkersComp || Math.round((record.grossSalary || 0) * workersCompRate)`. -/
def companyWorkersComp (r : PayrollRecord) (s : Settings) : ℚ :=
  jsOr r.companyWorkersComp ((jsRound (r.grossSalary * workersCompRate s) : ℚ))

/-- Source `totalCompanyBenefits` (Header.tsx:225). -/
def totalCompanyBenefits (r : PayrollRecord) (s : Settings) : ℚ :=
  companySocialIns r + companyEmploymentIns r s + companyWorkersComp r s

/-- Source `dailyWorkHours` (Header.tsx:383-385):
`(record.workDays && record.workDays > 0 && record.workHours) ? record.workHours / record.workDays : 8`;
the truthiness test on `workDays` is subsumed by `workDays > 0`. -/
def dailyWorkHours (r : PayrollRecord) : ℚ :=
  if 0 < r.workDays.getD 0 ∧ r.workHours.getD 0 ≠ 0 then
    r.workHours.getD 0 / r.workDays.getD 0
  else 8

/-- Source `calculatedPaidLeaveHours` (Header.tsx:389-391):
`(record.paidLeaveAmount && employee.hourlyRate > 0) ? record.paidLeaveAmount / employee.hourlyRate : record.paidLeaveHours || 0`. -/
def calculatedPaidLeaveHours (r : PayrollRecord) (e : Employee) : ℚ :=
  if r.paidLeaveAmount.getD 0 ≠ 0 ∧ 0 < e.hourlyRate then
    r.paidLeaveAmount.getD 0 / e.hourlyRate
  else r.paidLeaveHours.getD 0

/-- Source `rawPaidLeaveDays` (Header.tsx:395-397):
`dailyWorkHours > 0 ? calculatedPaidLeaveHours / dailyWorkHours : record.paidLeaveDays || 0`. -/
def rawPaidLeaveDays (r : PayrollRecord) (e : Employee) : ℚ :=
  if 0 < dailyWorkHours r then calculatedPaidLeaveHours r e / dailyWorkHours r
  else r.paidLeaveDays.getD 0

/-- Source `calculatedPaidLeaveDays` (Header.tsx:400):
`Math.round(rawPaidLeaveDays * 2) / 2` — nearest half-day. -/
def calculatedPaidLeaveDays (r : PayrollRecord) (e : Employee) : ℚ :=
  (jsRound (rawPaidLeaveDays r e * 2) : ℚ) / 2

/-- Source `dailyHrs` (Header.tsx:487-488, the 有給支給 row): same formula as
`dailyWorkHours`. -/
def dailyHrs (r : PayrollRecord) : ℚ :=
  if 0 < r.workDays.getD 0 ∧ r.workHours.getD 0 ≠ 0 then
    r.workHours.getD 0 / r.workDays.getD 0
  else 8

/-- Source `leaveHrs` (Header.tsx:489-490):
`employee.hourlyRate > 0 ? (record.paidLeaveAmount || 0) / employee.hourlyRate : 0`. -/
def leaveHrs (r : PayrollRecord) (e : Employee) : ℚ :=
  if 0 < e.hourlyRate then r.paidLeaveAmount.getD 0 / e.hourlyRate else 0

/-- Source `rawLeaveDays` (Header.tsx:491): `dailyHrs > 0 ? leaveHrs / dailyHrs : 0`. -/
def rawLeaveDays (r : PayrollRecord) (e : Employee) : ℚ :=
  if 0 < dailyHrs r then leaveHrs r e / dailyHrs r else 0

/-- Source `leaveDays` (Header.tsx:492): `Math.round(rawLeaveDays * 2) / 2`. -/
def leaveDays (r : PayrollRecord) (e : Employee) : ℚ :=
  (jsRound (rawLeaveDays r e * 2) : ℚ) / 2

/-! ## Period ordering (appStore.ts and lib/utils) -/

/-- Strict comparison of strings by code units, the comparison JS
`Array.prototype.sort` applies by default (our period tokens are BMP, where
UTF-16 code-unit order coincides with code-point order). -/
def strLt : List Char → List Char → Bool
  | [], [] => false
  | [], _ :: _ => true
  | _ :: _, [] => false
  | a :: as, b :: bs =>
    if a.toNat < b.toNat then true
    else if b.toNat < a.toNat then false
    else strLt as bs

/-- Non-strict code-unit string order. -/
def strLe (a b : String) : Bool := ! strLt b.data a.data

/-- Stable insertion of `x` into a sorted list: `x` goes in front of the
first element it is `le`-below, so earlier elements win ties (the
stability JS guarantees for `Array.prototype.sort`). -/
def insertLe (le : String → String → Bool) (x : String) : List String → List String
  | [] => [x]
  | h :: t => if le x h then x :: h :: t else h :: insertLe le x t

/-- Stable sort by `le` (JS `Array.prototype.sort` is stable). -/
def sortLe (le : String → String → Bool) : List String → List String
  | [] => []
  | h :: t => insertLe le h (sortLe le t)

/-- Source `Array.from(new Set(xs))`: keeps the first occurrence of each element,
in encounter order. -/
def dedupFirst (seen : List String) : List String → List String
  | [] => []
  | h :: t =>
    if seen.contains h then dedupFirst seen t
    else h :: dedupFirst (h :: seen) t

/-- Source `addPayrollRecords` / `loadSampleData` (appStore.ts:83,99): the
available-periods list,
`Array.from(new Set(records.map(r => r.period))).sort().reverse()` —
a plain lexicographic string sort, reversed. -/
def availablePeriods (records : List PayrollRecord) : List String :=
  (sortLe strLe (dedupFirst [] (records.map PayrollRecord.period))).reverse

/-- Modelled from the spec: `comparePeriods` lives in
`arari-app/src/lib/utils.ts`, which is not part of the provided sources
(only its import and call sites are, src/unnamed/part_001:9,37).  Spec
§4.5: "extract leading 4-digit year and 1–2 digit month from tokens such
as 2025年10月"; this parses that shape into `(year, month)`. -/
def parsePeriodToken (s : String) : Option (ℕ × ℕ) :=
  match s.data with
  | y1 :: y2 :: y3 :: y4 :: '年' :: rest =>
    if y1.isDigit && y2.isDigit && y3.isDigit && y4.isDigit then
      let year := (y1.toNat - 48) * 1000 + (y2.toNat - 48) * 100 +
        (y3.toNat - 48) * 10 + (y4.toNat - 48)
      match rest with
      | m1 :: '月' :: _ =>
        if m1.isDigit then some (year, m1.toNat - 48) else none
      | m1 :: m2 :: '月' :: _ =>
        if m1.isDigit && m2.isDigit then
          some (year, (m1.toNat - 48) * 10 + (m2.toNat - 48))
        else none
      | _ => none
    else none
  | _ => none

/-- Modelled from the spec: `comparePeriods` (lib/utils, missing from the
provided sources) "compare[s] numerically (not lexicographically)"; a token
whose year/month cannot be parsed is "treat[ed] as unsortable/last"
(spec §7). Positive result means the first period is newer. -/
def comparePeriods (a b : String) : ℤ :=
  match parsePeriodToken a, parsePeriodToken b with
  | some (ya, ma), some (yb, mb) =>
    if ya ≠ yb then (ya : ℤ) - (yb : ℤ) else (ma : ℤ) - (mb : ℤ)
  | some _, none => -1
  | none, some _ => 1
  | none, none => 0

/-! ## calculateMonthlySummary (appStore.ts:123-162) -/

/-- JS addition once a possibly-`undefined` operand is involved:
`undefined` (or an already-`NaN` accumulator) poisons the sum to `NaN`,
modelled as `none`. -/
def jsAdd (acc : Option ℚ) (x : Option ℚ) : Option ℚ :=
  match acc, x with
  | some a, some b => some (a + b)
  | _, _ => none

/-- Source `records.reduce((sum, r) => sum + f r, 0)` where `f r` may be
`undefined`: a single `undefined` turns the running total into `NaN`. -/
def jsSum (l : List (Option ℚ)) : Option ℚ := l.foldl jsAdd (some 0)

/-- First capture of `/(\d{4})年/` over the token (appStore.ts:131):
the first run of four digits immediately followed by 年, as a number;
`none` when the regex does not match. -/
def matchYear4 : List Char → Option ℕ
  | a :: b :: c :: d :: '年' :: rest =>
    if a.isDigit && b.isDigit && c.isDigit && d.isDigit then
      some ((a.toNat - 48) * 1000 + (b.toNat - 48) * 100 +
        (c.toNat - 48) * 10 + (d.toNat - 48))
    else matchYear4 (b :: c :: d :: '年' :: rest)
  | _ :: rest => matchYear4 rest
  | [] => none

/-- First capture of `/(\d{1,2})月/` (appStore.ts:132): at the earliest
position where one or two digits precede 月, the greedy (two-digit when
possible) capture. -/
def matchMonth12 : List Char → Option ℕ
  | a :: b :: rest =>
    if a.isDigit && b == '月' then some (a.toNat - 48)
    else
      match rest with
      | '月' :: _ =>
        if a.isDigit && b.isDigit then some ((a.toNat - 48) * 10 + (b.toNat - 48))
        else matchMonth12 (b :: rest)
      | _ => matchMonth12 (b :: rest)
  | _ => none

/-- Source `MonthlySummary` (src/types) as built by `calculateMonthlySummary`.
Totals over fields that may be `undefined` in a record are `Option ℚ`
(`none` = the `NaN` JS would produce). -/
structure MonthlySummary where
  period : String
  year : ℕ
  month : ℕ
  totalEmployees : ℕ
  totalRevenue : ℚ
  totalSalaryCost : ℚ
  totalSocialInsurance : Option ℚ
  totalEmploymentInsurance : Option ℚ
  totalPaidLeaveCost : Option ℚ
  totalTransportCost : Option ℚ
  totalCompanyCost : Option ℚ
  totalGrossProfit : ℚ
  averageMargin : ℚ
  topProfitEmployees : List (String × String × ℚ)
  bottomProfitEmployees : List (String × String × ℚ)
deriving Repr, DecidableEq

/-- Stable insertion for record sorts (same shape as `insertLe`). -/
def insertRecLe (le : PayrollRecord → PayrollRecord → Bool) (x : PayrollRecord) :
    List PayrollRecord → List PayrollRecord
  | [] => [x]
  | h :: t => if le x h then x :: h :: t else h :: insertRecLe le x t

/-- Stable sort for record lists (JS `Array.prototype.sort` is stable). -/
def sortRecLe (le : PayrollRecord → PayrollRecord → Bool) :
    List PayrollRecord → List PayrollRecord
  | [] => []
  | h :: t => insertRecLe le h (sortRecLe le t)

/-- Source `employees.find(e => e.employeeId === r.employeeId)?.hourlyRate || 0`
(appStore.ts:138). -/
def employeeHourlyRate (employees : List Employee) (r : PayrollRecord) : ℚ :=
  match employees.find? (fun e => e.employeeId == r.employeeId) with
  | some e => if e.hourlyRate = 0 then 0 else e.hourlyRate
  | none => 0

/-- Source `r.paidLeaveHours * rate` (appStore.ts:138): a bare read of a
possibly-`undefined` field — `undefined * rate` is `NaN`. -/
def jsMulOpt (a : Option ℚ) (b : ℚ) : Option ℚ :=
  match a with
  | some v => some (v * b)
  | none => none

/-- Source `name` lookup for top/bottom lists (appStore.ts:148,156):
`employees.find(e => e.employeeId === r.employeeId)?.name || ''`. -/
def employeeName (employees : List Employee) (r : PayrollRecord) : String :=
  match employees.find? (fun e => e.employeeId == r.employeeId) with
  | some e => e.name
  | none => ""

/-- Source `calculateMonthlySummary` (appStore.ts:123-162): filters the records by
period, returns `null` when none match, otherwise builds the summary.  The
two top/bottom sorts mutate the same JS array in place, so the ascending
sort starts from the descending-sorted array. -/
def calculateMonthlySummary (payrollRecords : List PayrollRecord)
    (employees : List Employee) (period : String) : Option MonthlySummary :=
  let periodRecords := payrollRecords.filter (fun r => r.period == period)
  if periodRecords = [] then none
  else
    let sortedDesc := sortRecLe (fun a b => b.grossProfit ≤ a.grossProfit) periodRecords
    let sortedAsc := sortRecLe (fun a b => a.grossProfit ≤ b.grossProfit) sortedDesc
    some
      { period := period
        year := (matchYear4 period.data).getD 2025
        month := (matchMonth12 period.data).getD 1
        totalEmployees := periodRecords.length
        totalRevenue := periodRecords.foldl (fun sum r => sum + r.billingAmount) 0
        totalSalaryCost := periodRecords.foldl (fun sum r => sum + r.grossSalary) 0
        totalSocialInsurance :=
          jsSum (periodRecords.map PayrollRecord.companySocialInsurance)
        totalEmploymentInsurance :=
          jsSum (periodRecords.map PayrollRecord.companyEmploymentInsurance)
        totalPaidLeaveCost :=
          jsSum (periodRecords.map
            (fun r => jsMulOpt r.paidLeaveHours (employeeHourlyRate employees r)))
        totalTransportCost :=
          jsSum (periodRecords.map PayrollRecord.transportAllowance)
        totalCompanyCost :=
          jsSum (periodRecords.map PayrollRecord.totalCompanyCost)
        totalGrossProfit := periodRecords.foldl (fun sum r => sum + r.grossProfit) 0
        averageMargin :=
          (periodRecords.foldl (fun sum r => sum + r.profitMargin) 0) /
            (periodRecords.length : ℚ)
        topProfitEmployees :=
          (sortedDesc.take 5).map
            (fun r => (r.employeeId, employeeName employees r, r.grossProfit))
        bottomProfitEmployees :=
          (sortedAsc.take 5).map
            (fun r => (r.employeeId, employeeName employees r, r.grossProfit)) }

/-- Modelled from the spec: the `billingAmount` stored on a record is
computed by the ingestion backend (Python/FastAPI), which is not among the
provided sources; spec §4.2: same hour buckets and multipliers as
compensation but at `employee.billingRate`, plus billable other allowances
passed through at cost, excluding transport and non-billable allowances. -/
def specBillingAmount (r : PayrollRecord) (e : Employee) : ℚ :=
  (r.workHours.getD 0) * e.billingRate * 1 +
    (r.overtimeHours.getD 0) * e.billingRate * (5/4) +
    (r.overtimeOver60h.getD 0) * e.billingRate * (3/2) +
    (r.nightHours.getD 0) * e.billingRate * (1/4) +
    (r.holidayHours.getD 0) * e.billingRate * (27/20) +
    (r.otherAllowances.getD 0)

/-! ## Concrete fixtures -/

/-- A record with every optional field absent and every bare field `0`. -/
def emptyRecord : PayrollRecord := { period := "", employeeId := "" }

/-- A record with a negative stored billing amount and positive profit. -/
def rNegBilling : PayrollRecord :=
  { emptyRecord with billingAmount := -100, grossProfit := 50 }

/-- A record with a positive billing amount. -/
def rPosBilling : PayrollRecord :=
  { emptyRecord with billingAmount := 200, grossProfit := 30 }

/-- An employee whose hourly rate is zero (e.g. an unpaid trainee period). -/
def eZeroRate : Employee :=
  { employeeId := "E1", name := "T", hourlyRate := 0, billingRate := 0 }

/-- A record carrying a paid-leave amount and a stored paid-leave-hours
value. -/
def rPaidLeave : PayrollRecord :=
  { emptyRecord with
    workDays := some 20, workHours := some 160,
    paidLeaveAmount := some 1000, paidLeaveHours := some 5 }

/-- Settings with every rate unset, so each default applies. -/
def sDefault : Settings := {}

/-- A record whose ingested `companyEmploymentInsurance` is the value `0`. -/
def rStoredZeroIns : PayrollRecord :=
  { emptyRecord with grossSalary := 100000, companyEmploymentInsurance := some 0 }

/-- A record with nonzero ingested employer-cost overrides. -/
def rStoredIns : PayrollRecord :=
  { emptyRecord with
    grossSalary := 100000,
    companyEmploymentInsurance := some 1200, companyWorkersComp := some 700,
    companySocialInsurance := some 30000 }

/-! ## C1: profit margin -/

/-- C1, counterexample: the claim "profitMargin equals
grossProfit / billingAmount × 100, and is 0 exactly when billingAmount is
0" is false at a record with a negative billing amount: the source guard is
`billingAmount > 0`, so the code yields `0` while the claimed formula
yields `-50`. -/
theorem marginRate_negative_billing_counterexample :
    rNegBilling.billingAmount ≠ 0 ∧
    marginRate rNegBilling = 0 ∧
    rNegBilling.grossProfit / rNegBilling.billingAmount * 100 = -50 := by
  refine ⟨by norm_num [rNegBilling, emptyRecord], ?_, by norm_num [rNegBilling, emptyRecord]⟩
  norm_num [marginRate, rNegBilling, emptyRecord]

/-- C1, amended: the margin is `grossProfit / billingAmount × 100` whenever
`billingAmount > 0` and `0` whenever `billingAmount ≤ 0` (in particular at
`0`); the computation is a total function into `ℚ`, so no `NaN` or
`undefined` can reach a caller, and `recordMargin` (part_001) computes the
same value. -/
theorem marginRate_guarded (r : PayrollRecord) :
    (0 < r.billingAmount → marginRate r = r.grossProfit / r.billingAmount * 100) ∧
    (r.billingAmount ≤ 0 → marginRate r = 0) ∧
    recordMargin r = marginRate r := by
  refine ⟨fun h => ?_, fun h => ?_, rfl⟩
  · simp [marginRate, h]
  · simp [marginRate, not_lt.mpr h]

/-- C1 witness: the amended theorem applied to concrete records on both
sides of the guard. -/
theorem marginRate_guarded_witness :
    ((0 : ℚ) < rPosBilling.billingAmount ∧
      marginRate rPosBilling = rPosBilling.grossProfit / rPosBilling.billingAmount * 100) ∧
    (rNegBilling.billingAmount ≤ (0 : ℚ) ∧ marginRate rNegBilling = 0) :=
  ⟨⟨by norm_num [rPosBilling, emptyRecord],
    (marginRate_guarded rPosBilling).1 (by norm_num [rPosBilling, emptyRecord])⟩,
   ⟨by norm_num [rNegBilling, emptyRecord],
    (marginRate_guarded rNegBilling).2.1 (by norm_num [rNegBilling, emptyRecord])⟩⟩

/-! ## C2: paid-leave back-calculation -/

/-- C2, counterexample: with `hourlyRate = 0` the slip's paid-leave
back-calculation does not yield `paidLeaveHours = 0`: the source falls back
to the stored `record.paidLeaveHours` (here `5`), and the derived half-day
count is `0.5`, not `0`. -/
theorem paidLeave_hourlyRateZero_counterexample :
    eZeroRate.hourlyRate = 0 ∧
    calculatedPaidLeaveHours rPaidLeave eZeroRate = 5 ∧
    calculatedPaidLeaveDays rPaidLeave eZeroRate = 1/2 := by
  refine ⟨rfl, ?_, ?_⟩
  · norm_num [calculatedPaidLeaveHours, rPaidLeave, eZeroRate, emptyRecord]
  · norm_num [calculatedPaidLeaveDays, rawPaidLeaveDays, dailyWorkHours,
      calculatedPaidLeaveHours, jsRound, rPaidLeave, eZeroRate, emptyRecord]

/-- C2, amended: `dailyWorkHours = workHours / workDays` only when
`workDays > 0` and `workHours ≠ 0` (the 8-hour default also applies when
`workHours` is 0 or missing); `paidLeaveHours = paidLeaveAmount / hourlyRate`
only when `paidLeaveAmount ≠ 0` and `hourlyRate > 0`, and with
`hourlyRate = 0` it falls back to the stored `paidLeaveHours` (0 when
missing) while the slip's second site (`leaveHrs`/`leaveDays`) does yield 0;
days round to the nearest half-day; every division happens under a
nonzero-denominator guard, so none of these derivations can divide by
zero. -/
theorem paidLeave_backcalc (r : PayrollRecord) (e : Employee) :
    (0 < r.workDays.getD 0 ∧ r.workHours.getD 0 ≠ 0 →
      dailyWorkHours r = r.workHours.getD 0 / r.workDays.getD 0) ∧
    (¬(0 < r.workDays.getD 0 ∧ r.workHours.getD 0 ≠ 0) → dailyWorkHours r = 8) ∧
    (r.paidLeaveAmount.getD 0 ≠ 0 ∧ 0 < e.hourlyRate →
      calculatedPaidLeaveHours r e = r.paidLeaveAmount.getD 0 / e.hourlyRate) ∧
    (e.hourlyRate = 0 →
      calculatedPaidLeaveHours r e = r.paidLeaveHours.getD 0 ∧
      leaveHrs r e = 0 ∧ leaveDays r e = 0) ∧
    (0 < dailyWorkHours r →
      calculatedPaidLeaveDays r e =
        (jsRound (calculatedPaidLeaveHours r e / dailyWorkHours r * 2) : ℚ) / 2) := by
  refine ⟨fun h => ?_, fun h => ?_, fun h => ?_, fun h => ⟨?_, ?_, ?_⟩, fun h => ?_⟩
  · simp [dailyWorkHours, h]
  · simp [dailyWorkHours, h]
  · simp [calculatedPaidLeaveHours, h]
  · have : ¬(r.paidLeaveAmount.getD 0 ≠ 0 ∧ 0 < e.hourlyRate) := by
      rintro ⟨-, hlt⟩; exact absurd h (by linarith)
    simp [calculatedPaidLeaveHours, this]
  · simp [leaveHrs, h]
  · have hz : leaveHrs r e = 0 := by simp [leaveHrs, h]
    have : rawLeaveDays r e = 0 := by
      unfold rawLeaveDays; rw [hz]; split <;> simp
    simp [leaveDays, this, jsRound]
    norm_num
  · simp [calculatedPaidLeaveDays, rawPaidLeaveDays, h]

/-- C2 witness: the amended theorem applied to the concrete zero-rate
fixture. -/
theorem paidLeave_backcalc_witness :
    eZeroRate.hourlyRate = 0 ∧
    calculatedPaidLeaveHours rPaidLeave eZeroRate = rPaidLeave.paidLeaveHours.getD 0 ∧
    leaveHrs rPaidLeave eZeroRate = 0 ∧ leaveDays rPaidLeave eZeroRate = 0 :=
  ⟨rfl, (paidLeave_backcalc rPaidLeave eZeroRate).2.2.2.1 rfl⟩

/-! ## C3: employer-side statutory costs -/

/-- C3, counterexample: an ingested value of `0` for
`companyEmploymentInsurance` is a carried precomputed value, yet the source
(`record.companyEmploymentInsurance || Math.round(...)`) treats it as
falsy and recomputes `round(100000 × 0.009) = 900` instead of using the
stored `0`. -/
theorem employerCost_zeroOverride_counterexample :
    rStoredZeroIns.companyEmploymentInsurance = some 0 ∧
    companyEmploymentIns rStoredZeroIns sDefault = 900 := by
  refine ⟨rfl, ?_⟩
  norm_num [companyEmploymentIns, jsOr, empInsRate, jsRound, rStoredZeroIns,
    sDefault, emptyRecord]

/-- C3, amended: with no stored value — or a stored value of `0`, which the
truthiness test treats like an absent one — the employer-side employment
insurance is `round(grossSalary × employment_insurance_rate)` and workers'
compensation is `round(grossSalary × workers_comp_rate)` (rates defaulting
to 0.9% and 0.3% when unset); a stored nonzero value for any employer-cost
field is used as-is without recomputation. -/
theorem employerCost_override_or_derive (r : PayrollRecord) (s : Settings) :
    (∀ v : ℚ, v ≠ 0 → r.companyEmploymentInsurance = some v →
      companyEmploymentIns r s = v) ∧
    (r.companyEmploymentInsurance = none ∨ r.companyEmploymentInsurance = some 0 →
      companyEmploymentIns r s = (jsRound (r.grossSalary * empInsRate s) : ℚ)) ∧
    (∀ v : ℚ, v ≠ 0 → r.companyWorkersComp = some v →
      companyWorkersComp r s = v) ∧
    (r.companyWorkersComp = none ∨ r.companyWorkersComp = some 0 →
      companyWorkersComp r s = (jsRound (r.grossSalary * workersCompRate s) : ℚ)) ∧
    (∀ v : ℚ, v ≠ 0 → r.companySocialInsurance = some v →
      companySocialIns r = v) ∧
    (r.companySocialInsurance = none ∨ r.companySocialInsurance = some 0 →
      companySocialIns r = companyHealthIns r + companyWelfarePension r) ∧
    (s.employment_insurance_rate = none → empInsRate s = 9/1000) ∧
    (s.workers_comp_rate = none → workersCompRate s = 3/1000) := by
  refine ⟨fun v hv hr => ?_, fun h => ?_, fun v hv hr => ?_, fun h => ?_,
    fun v hv hr => ?_, fun h => ?_, fun h => ?_, fun h => ?_⟩
  · simp [companyEmploymentIns, jsOr, hr, hv]
  · rcases h with h | h <;> simp [companyEmploymentIns, jsOr, h]
  · simp [companyWorkersComp, jsOr, hr, hv]
  · rcases h with h | h <;> simp [companyWorkersComp, jsOr, h]
  · simp [companySocialIns, jsOr, hr, hv]
  · rcases h with h | h <;> simp [companySocialIns, jsOr, h]
  · simp [empInsRate, jsOr, h]
  · simp [workersCompRate, jsOr, h]

/-- C3 witness: the amended theorem applied to a record with nonzero stored
overrides and to the zero-stored fixture. -/
theorem employerCost_override_or_derive_witness :
    companyEmploymentIns rStoredIns sDefault = 1200 ∧
    companyWorkersComp rStoredIns sDefault = 700 ∧
    companySocialIns rStoredIns = 30000 ∧
    companyEmploymentIns rStoredZeroIns sDefault =
      (jsRound (rStoredZeroIns.grossSalary * empInsRate sDefault) : ℚ) :=
  ⟨(employerCost_override_or_derive rStoredIns sDefault).1 1200 (by norm_num) rfl,
   (employerCost_override_or_derive rStoredIns sDefault).2.2.1 700 (by norm_num) rfl,
   (employerCost_override_or_derive rStoredIns sDefault).2.2.2.2.1 30000 (by norm_num) rfl,
   (employerCost_override_or_derive rStoredZeroIns sDefault).2.1 (Or.inr rfl)⟩

/-! ## C4: billing breakdown -/

/-- C4, confirmed (billing total modelled from the spec, §4.2): the
spec-side billing amount equals the sum of the slip's displayed hour-bucket
amounts — base ×1, overtime ×1.25, over-60h ×1.5, night +0.25, holiday
×1.35, all at `employee.billingRate` — plus the billable other allowances
passed through at cost, and it is unchanged by the transport allowance and
the non-billable allowances. -/
theorem billing_breakdown_refines_spec (r : PayrollRecord) (e : Employee)
    (v w : Option ℚ) :
    specBillingAmount r e =
      baseBilling r e + overtimeBilling r e + overtime60hBilling r e +
        nightBilling r e + holidayBilling r e + r.otherAllowances.getD 0 ∧
    specBillingAmount { r with transportAllowance := v, nonBillableAllowances := w } e =
      specBillingAmount r e := by
  constructor
  · simp only [specBillingAmount, baseBilling, overtimeBilling,
      overtime60hBilling, nightBilling, holidayBilling]
    ring
  · simp [specBillingAmount]

/-! ## C5: margin banding -/

/-- C5, confirmed: with the resolved target `t` (15 when
`target_margin` is unset), the band is excellent iff `t ≤ m`, near-target
iff `t - 3 ≤ m < t`, warning iff `t - 7 ≤ m < t - 3`, and critical iff
`m < t - 7`; every band's lower bound is inclusive. -/
theorem marginBand_spec (s : Settings) (m : ℚ) :
    (getMarginColor s m = .excellent ↔ targetMargin s ≤ m) ∧
    (getMarginColor s m = .nearTarget ↔ targetMargin s - 3 ≤ m ∧ m < targetMargin s) ∧
    (getMarginColor s m = .warning ↔ targetMargin s - 7 ≤ m ∧ m < targetMargin s - 3) ∧
    (getMarginColor s m = .critical ↔ m < targetMargin s - 7) ∧
    targetMargin { s with target_margin := none } = 15 := by
  refine ⟨?_, ?_, ?_, ?_, by simp [targetMargin, jsOr]⟩ <;>
  · unfold getMarginColor
    dsimp only
    split_ifs with h1 h2 h3 <;> simp_all <;>
      first
        | linarith
        | (intro h; linarith)

/-! ## C6: period ordering -/

/-- A record for the 2025年9月 period. -/
def rSep : PayrollRecord := { emptyRecord with period := "2025年9月" }

/-- A record for the 2025年10月 period. -/
def rOct : PayrollRecord := { emptyRecord with period := "2025年10月" }

/-- C6: `comparePeriods` (modelled from the spec) does order 2025年10月
after 2025年9月 numerically, but that ordering does not govern every period
sort: the `availablePeriods` list built by `addPayrollRecords`
(appStore.ts:99) uses a plain lexicographic string sort and reverse, which
leaves 2025年9月 in the newest-first slot ahead of 2025年10月. -/
theorem periodSort_lexicographic_failing :
    0 < comparePeriods ("2025年10月") ("2025年9月") ∧
    availablePeriods [rSep, rOct] = [("2025年9月"), ("2025年10月")] := by
  constructor
  · decide
  · rfl

/-! ## Helper lemmas for the summary proofs -/

/-- Folding `+ f r` from `a` is `a` plus the sum of the mapped list. -/
theorem foldl_add_map (f : PayrollRecord → ℚ) :
    ∀ (l : List PayrollRecord) (a : ℚ),
      l.foldl (fun sum r => sum + f r) a = a + (l.map f).sum
  | [], a => by simp
  | h :: t, a => by
    simp only [List.foldl_cons, List.map_cons, List.sum_cons]
    rw [foldl_add_map f t (a + f h)]
    ring

/-- A `NaN` accumulator never recovers. -/
theorem foldl_jsAdd_none : ∀ l : List (Option ℚ), l.foldl jsAdd none = none
  | [] => rfl
  | h :: t => by
    have : jsAdd none h = none := by cases h <;> rfl
    simp only [List.foldl_cons, this]
    exact foldl_jsAdd_none t

/-- One `undefined` operand anywhere poisons the whole JS running sum. -/
theorem foldl_jsAdd_of_mem_none (acc : Option ℚ) :
    ∀ l : List (Option ℚ), none ∈ l → l.foldl jsAdd acc = none := by
  intro l
  induction l generalizing acc with
  | nil => intro h; cases h
  | cons h t ih =>
    intro hm
    rcases List.mem_cons.mp hm with rfl | hm
    · have : jsAdd acc none = none := by cases acc <;> rfl
      simp only [List.foldl_cons, this]
      exact foldl_jsAdd_none t
    · exact ih (jsAdd acc h) hm

/-- `jsSum` is `NaN` as soon as one summand is `undefined`. -/
theorem jsSum_eq_none_of_mem (l : List (Option ℚ)) (h : none ∈ l) :
    jsSum l = none :=
  foldl_jsAdd_of_mem_none (some 0) l h

/-! ## C7: empty period gives null -/

/-- C7, confirmed: `calculateMonthlySummary` returns `null` exactly when no
payroll record matches the requested period; a summary object exists only
when the filtered record list is non-empty. -/
theorem monthlySummary_none_iff_empty (payrollRecords : List PayrollRecord)
    (employees : List Employee) (period : String) :
    calculateMonthlySummary payrollRecords employees period = none ↔
      payrollRecords.filter (fun r => r.period == period) = [] := by
  unfold calculateMonthlySummary
  by_cases h : payrollRecords.filter (fun r => r.period == period) = [] <;> simp [h]

/-! ## C8: average margin is the mean of per-record margins -/

/-- C8, confirmed: when the summary exists, `averageMargin` is the sum of
the matching records' own stored `profitMargin` fields divided by the
number of matching records — not a margin recomputed from the period's
billing and profit totals. -/
theorem averageMargin_is_mean (payrollRecords : List PayrollRecord)
    (employees : List Employee) (period : String) (s : MonthlySummary)
    (h : calculateMonthlySummary payrollRecords employees period = some s) :
    s.averageMargin =
      ((payrollRecords.filter (fun r => r.period == period)).map
          PayrollRecord.profitMargin).sum /
        ((payrollRecords.filter (fun r => r.period == period)).length : ℚ) := by
  by_cases he : payrollRecords.filter (fun r => r.period == period) = []
  · simp [calculateMonthlySummary, he] at h
  · simp only [calculateMonthlySummary] at h
    rw [if_neg he] at h
    injection h with h
    subst h
    simp [foldl_add_map]

/-- A record for the mean-of-margins witness. -/
def rM1 : PayrollRecord := { emptyRecord with period := "2025年1月", profitMargin := 10 }

/-- A second record for the mean-of-margins witness. -/
def rM2 : PayrollRecord :=
  { emptyRecord with period := "2025年1月", employeeId := "B", profitMargin := 20 }

/-- The summary `calculateMonthlySummary` builds for `[rM1, rM2]`. -/
def msMean : MonthlySummary :=
  { period := "2025年1月", year := 2025, month := 1, totalEmployees := 2,
    totalRevenue := 0, totalSalaryCost := 0, totalSocialInsurance := none,
    totalEmploymentInsurance := none, totalPaidLeaveCost := none,
    totalTransportCost := none, totalCompanyCost := none, totalGrossProfit := 0,
    averageMargin := 15,
    topProfitEmployees := [("", "", 0), ("B", "", 0)],
    bottomProfitEmployees := [("", "", 0), ("B", "", 0)] }

/-- C8 witness: margins 10 and 20 average to 15. -/
theorem averageMargin_is_mean_witness :
    (calculateMonthlySummary [rM1, rM2] [] ("2025年1月")).map
        MonthlySummary.averageMargin = some 15 := by
  have h : calculateMonthlySummary [rM1, rM2] [] ("2025年1月") = some msMean := by
    unfold calculateMonthlySummary
    norm_num [rM1, rM2, emptyRecord, msMean, jsSum, jsAdd, jsMulOpt, employeeName,
      employeeHourlyRate, sortRecLe, insertRecLe, matchYear4, matchMonth12]
    decide
  rw [h, Option.map_some',
    averageMargin_is_mean [rM1, rM2] [] ("2025年1月") msMean h]
  norm_num [rM1, rM2, emptyRecord]

/-! ## C9: records with failing derivations are not isolated -/

/-- A record whose derived `companySocialInsurance` is `undefined`. -/
def rBad : PayrollRecord := { emptyRecord with period := "2025年2月", employeeId := "X" }

/-- A record with a well-defined `companySocialInsurance`. -/
def rGood : PayrollRecord :=
  { emptyRecord with
    period := "2025年2月", employeeId := "Y", companySocialInsurance := some 5000 }

/-- C9, counterexample: summarising a period containing a record whose
`companySocialInsurance` is `undefined` neither excludes that record nor
keeps `NaN` out of the summary: both records are counted and
`totalSocialInsurance` is the `NaN` (`none`) that `0 + undefined`
produces. -/
theorem summary_nan_counterexample :
    rBad.companySocialInsurance = none ∧
    (calculateMonthlySummary [rBad, rGood] [] ("2025年2月")).map
        (fun s => (s.totalEmployees, s.totalSocialInsurance)) =
      some (2, (none : Option ℚ)) := by
  exact ⟨rfl, by decide⟩

/-- C9, amended: `calculateMonthlySummary` never throws (it is a total
function), but it performs no isolation: every matching record is counted
in `totalEmployees`, and if any matching record carries an `undefined`
`companySocialInsurance` the resulting `NaN` propagates into
`totalSocialInsurance` instead of the record being excluded. -/
theorem summary_keeps_failing_records (payrollRecords : List PayrollRecord)
    (employees : List Employee) (period : String) (s : MonthlySummary)
    (h : calculateMonthlySummary payrollRecords employees period = some s) :
    s.totalEmployees = (payrollRecords.filter (fun r => r.period == period)).length ∧
    ∀ r ∈ payrollRecords.filter (fun r => r.period == period),
      r.companySocialInsurance = none → s.totalSocialInsurance = none := by
  by_cases he : payrollRecords.filter (fun r => r.period == period) = []
  · simp [calculateMonthlySummary, he] at h
  · simp only [calculateMonthlySummary] at h
    rw [if_neg he] at h
    injection h with h
    subst h
    refine ⟨rfl, fun r hr hnone => ?_⟩
    exact jsSum_eq_none_of_mem _
      (List.mem_map.mpr ⟨r, hr, hnone⟩)

/-- The summary `calculateMonthlySummary` builds for `[rBad, rGood]`. -/
def msPoisoned : MonthlySummary :=
  { period := "2025年2月", year := 2025, month := 2, totalEmployees := 2,
    totalRevenue := 0, totalSalaryCost := 0, totalSocialInsurance := none,
    totalEmploymentInsurance := none, totalPaidLeaveCost := none,
    totalTransportCost := none, totalCompanyCost := none, totalGrossProfit := 0,
    averageMargin := 0,
    topProfitEmployees := [("X", "", 0), ("Y", "", 0)],
    bottomProfitEmployees := [("X", "", 0), ("Y", "", 0)] }

/-- C9 witness: the amended theorem applied to the concrete poisoned
period. -/
theorem summary_keeps_failing_records_witness :
    msPoisoned.totalEmployees = 2 ∧ msPoisoned.totalSocialInsurance = none := by
  have h : calculateMonthlySummary [rBad, rGood] [] ("2025年2月") = some msPoisoned := by
    unfold calculateMonthlySummary
    norm_num [rBad, rGood, emptyRecord, msPoisoned, jsSum, jsAdd, jsMulOpt,
      employeeName, employeeHourlyRate, sortRecLe, insertRecLe, matchYear4,
      matchMonth12]
    decide
  have hm := summary_keeps_failing_records [rBad, rGood] [] ("2025年2月") msPoisoned h
  exact ⟨hm.1.trans (by simp [rBad, rGood, emptyRecord]),
    hm.2 rBad (by simp [rBad, rGood, emptyRecord]) rfl⟩

/-! ## C10: the slip's deduction total -/

/-- C10, confirmed: the slip's 控除合計 is exactly the sum of the six
fields 健康保険・厚生年金・雇用保険・所得税・住民税・その他控除 (each 0 when
missing); it is unchanged by 寮費・家賃, 光熱費, 食事代・弁当, 前借金返済
and 年末調整, even though each of those appears as its own rendered
deduction row. -/
theorem slipDeductionTotal_fields (r : PayrollRecord) (v : Option ℚ) :
    totalDeductions r =
      r.socialInsurance.getD 0 + r.welfarePension.getD 0 +
        r.employmentInsurance.getD 0 + r.incomeTax.getD 0 +
        r.residentTax.getD 0 + r.otherDeductions.getD 0 ∧
    totalDeductions { r with rentDeduction := v } = totalDeductions r ∧
    totalDeductions { r with utilitiesDeduction := v } = totalDeductions r ∧
    totalDeductions { r with mealDeduction := v } = totalDeductions r ∧
    totalDeductions { r with advancePayment := v } = totalDeductions r ∧
    totalDeductions { r with yearEndAdjustment := v } = totalDeductions r ∧
    ("寮費・家賃", r.rentDeduction.getD 0) ∈ slipDeductionRows r ∧
    ("光熱費", r.utilitiesDeduction.getD 0) ∈ slipDeductionRows r ∧
    ("食事代・弁当", r.mealDeduction.getD 0) ∈ slipDeductionRows r ∧
    ("前借金返済", r.advancePayment.getD 0) ∈ slipDeductionRows r ∧
    (r.yearEndAdjustment.getD 0 ≠ 0 →
      ("年末調整", r.yearEndAdjustment.getD 0) ∈ slipDeductionRows r) := by
  refine ⟨rfl, rfl, rfl, rfl, rfl, rfl, ?_, ?_, ?_, ?_, fun h => ?_⟩ <;>
    simp_all [slipDeductionRows]

/-- A record with a nonzero 年末調整 and an excluded 寮費・家賃 value. -/
def rDed : PayrollRecord :=
  { emptyRecord with
    socialInsurance := some 100, rentDeduction := some 999,
    yearEndAdjustment := some 3 }

/-- C10 witness: the theorem applied at a record with a rendered 年末調整
row and a rent deduction that does not move the total. -/
theorem slipDeductionTotal_fields_witness :
    rDed.yearEndAdjustment.getD 0 ≠ 0 ∧
    ("年末調整", rDed.yearEndAdjustment.getD 0) ∈ slipDeductionRows rDed ∧
    totalDeductions { rDed with rentDeduction := some 5 } = totalDeductions rDed :=
  ⟨by norm_num [rDed, emptyRecord],
   (slipDeductionTotal_fields rDed (some 5)).2.2.2.2.2.2.2.2.2.2
     (by norm_num [rDed, emptyRecord]),
   (slipDeductionTotal_fields rDed (some 5)).2.1⟩

end Arari
